import Mathlib

set_option linter.unusedVariables false

/-
Verification development for the Polkadot ledger-connector plugin
(packages/cactus-plugin-ledger-connector-polkadot).

The definitions below are a shallow embedding of the methods of the class
PluginLedgerConnectorPolkadot in
src/main/typescript/plugin-ledger-connector-polkadot.ts:

  - transactMnemonicString : keypair submission path (signAndSend bridge),
  - transactSigned         : raw pre-signed submission path
                             (submitAndWatchExtrinsic bridge),
  - transactCactusKeychainRef : keychain-reference credential path,
  - deployContract         : ink! contract deployment,
  - obtainTransactionInformation : nonce / blockHash / era lookup.

External collaborators (the polkadot-js chain client, the keyring, the
contract ABI codec, the secret-store keychain plugin) are modelled as
capabilities: the chain client delivers subscription notifications as an
explicit list in arrival order, hashes are byte lists rendered by a model
of Codec.toHex, the keyring derivation is the identity on the mnemonic,
and the parsed Abi is carried directly in the deployment request.

The one-shot Promise that each submission path constructs around its
subscription callback is modelled by promiseSettle: the promise settles
with the action of the first callback invocation that resolves or
rejects, and later notifications cannot change the settled value (the
code never unsubscribes, so the callback keeps running; values thrown
inside the callback after resolve/reject never reach the caller and are
modelled separately as diagnostics, collected by callbackDiags).
-/

/-- Model of Codec.toHex for a hash given as a list of bytes: always a
string beginning with the characters 0 and x. -/
def hexChar (n : Nat) : Char :=
  if n < 10 then Char.ofNat (48 + n) else Char.ofNat (87 + n)

def hexBody (bs : List Nat) : List Char :=
  (bs.map (fun b => [hexChar ((b / 16) % 16), hexChar (b % 16)])).flatten

def toHex (bs : List Nat) : String :=
  String.mk ('0' :: 'x' :: hexBody bs)

/-- Model of isHex from the polkadot util package: a 0x-prefixed string of
hex digits with an even number of characters. -/
def isHexChar (c : Char) : Bool :=
  (48 ≤ c.toNat && c.toNat ≤ 57) ||
    (97 ≤ c.toNat && c.toNat ≤ 102) ||
    (65 ≤ c.toNat && c.toNat ≤ 70)

def isHex (s : String) : Bool :=
  match s.data with
  | '0' :: 'x' :: rest => rest.all isHexChar && s.data.length % 2 == 0
  | _ => false

/-- A chain event as destructured by the keypair-path callback:
the section and method of the record's inner event. -/
structure Event where
  sectionName : String
  method : String
deriving DecidableEq

/-- Extrinsic status of a subscription notification. isInBlock and
isFinalized carry the hash of the including block (status.asInBlock). -/
inductive TxStatus where
  | ready
  | broadcast
  | dropped
  | invalid
  | usurped
  | inBlock (blockHash : List Nat)
  | finalized (blockHash : List Nat)
deriving DecidableEq

def TxStatus.isInBlock : TxStatus → Bool
  | .inBlock _ => true
  | _ => false

def TxStatus.isFinalized : TxStatus → Bool
  | .finalized _ => true
  | _ => false

/-- status.asInBlock: the including block's hash; the source only reads it
under status.isInBlock, where it is the inBlock payload. -/
def TxStatus.asInBlock : TxStatus → List Nat
  | .inBlock bh => bh
  | .finalized bh => bh
  | _ => []

/-- The status type tag interpolated into the raw path's thrown error. -/
def TxStatus.typeTag : TxStatus → String
  | .ready => "Ready"
  | .broadcast => "Broadcast"
  | .dropped => "Dropped"
  | .invalid => "Invalid"
  | .usurped => "Usurped"
  | .inBlock _ => "InBlock"
  | .finalized _ => "Finalized"

/-- One signAndSend notification on the keypair path, as destructured by
the callback: the block's emitted events, the status, and the
submission's transaction hash. -/
structure SubmittableResult where
  events : List Event
  status : TxStatus
  txHash : List Nat
deriving DecidableEq

/-- One submitAndWatchExtrinsic notification on the raw pre-signed path,
as destructured by the callback: the status (isInBlock, asInBlock, type)
and the hash field read off the notification. -/
structure ExtrinsicStatusNotification where
  status : TxStatus
  hash : List Nat
deriving DecidableEq

/-- Value of the inner Promise of both transaction submission paths. -/
structure TxResult where
  success : Bool
  transactionHash : String
  blockhash : String
deriving DecidableEq

/-- Effect of one callback invocation on the bridge: an optional
resolution or rejection of the pending promise (Except.ok resolves,
Except.error rejects with the reject reason), and an optional diagnostic
thrown inside the callback, which never reaches the caller. -/
structure CallbackEffect (R : Type) (D : Type) where
  action : Option (Except String R)
  diag : Option D

/-- The one-shot promise: settles with the action of the first callback
invocation that resolves or rejects; a second decisive notification
cannot overwrite the settled value. Option.none means the promise is
still pending after the whole notification sequence. -/
def promiseSettle {N R D : Type} (cb : N → CallbackEffect R D) :
    List N → Option (Except String R)
  | [] => Option.none
  | n :: ns =>
    match (cb n).action with
    | some r => some r
    | Option.none => promiseSettle cb ns

/-- All diagnostics thrown by the callback over the notification
sequence; the subscription is never torn down, so every notification
invokes the callback. -/
def callbackDiags {N R D : Type} (cb : N → CallbackEffect R D)
    (ns : List N) : List D :=
  ns.filterMap (fun n => (cb n).diag)

/-- The predicate of the events.find call on the keypair path: a
system-level ExtrinsicSuccess event. -/
def isExtrinsicSuccessEvent (e : Event) : Bool :=
  e.sectionName == "system" && e.method == "ExtrinsicSuccess"

/-- The signAndSend callback of transactMnemonicString: only acts when
status.isInBlock; resolves with the hashes when a system.ExtrinsicSuccess
event is found, else rejects with the literal reject reason and throws a
diagnostic error carrying the raw event list. -/
def mnemonicCallback (n : SubmittableResult) :
    CallbackEffect TxResult (List Event) :=
  if n.status.isInBlock then
    match n.events.find? isExtrinsicSuccessEvent with
    | some _ =>
      { action := some (Except.ok
          { success := true
            transactionHash := toHex n.txHash
            blockhash := toHex n.status.asInBlock })
        diag := Option.none }
    | Option.none =>
      { action := some (Except.error "transaction not successful")
        diag := some n.events }
  else { action := Option.none, diag := Option.none }

/-- The submitAndWatchExtrinsic callback of transactSigned: resolves with
the hashes when isInBlock, otherwise rejects immediately with the literal
reject reason and throws a diagnostic carrying the status type tag. -/
def signedCallback (n : ExtrinsicStatusNotification) :
    CallbackEffect TxResult String :=
  if n.status.isInBlock then
    { action := some (Except.ok
        { success := true
          transactionHash := toHex n.hash
          blockhash := toHex n.status.asInBlock })
      diag := Option.none }
  else
    { action := some (Except.error "transaction not successful")
      diag := some ("transaction not submitted with status: " ++
        n.status.typeTag) }

/-- The RunTransactionResponse data contract returned to the caller. -/
structure RunTransactionResponse where
  success : Bool
  txHash : Option String
  blockHash : Option String
deriving DecidableEq

/-- Terminal behaviour of one transaction submission call: a returned
response, a thrown error, or a promise left pending forever. -/
inductive RunOutcome where
  | ok (resp : RunTransactionResponse)
  | err (msg : String)
  | pending
deriving DecidableEq

/-- Observable run of a submission operation: the outcome, the number of
sign-and-submit calls made to the chain client, and the number of
Prometheus transaction-counter increments performed. -/
structure TransactRun where
  outcome : RunOutcome
  signerCalls : Nat
  counterIncrements : Nat
deriving DecidableEq

/-- The transactionConfig part of a RunTransactionRequest; toAddress
stands for the request field named to, a reserved word here. -/
structure TransactionConfig where
  toAddress : Option String
  value : Option Nat
  transferSubmittable : Option String
deriving DecidableEq

def apiNotConnectedMsg : String :=
  "The operation has failed because the API is not connected to Substrate Node"

def mnemonicFailMsg : String :=
  "PluginLedgerConnectorPolkadot#transactMnemonicString() The transaction failed. InnerException: "

/-- transactMnemonicString: checks the api connection, derives a keypair
from the mnemonic (keyring modelled as identity), builds and signs the
transfer for the config, and bridges the signAndSend subscription over
the given notification sequence. -/
def transactMnemonicString (apiConnected : Bool) (mnemonic : String)
    (transactionConfig : TransactionConfig)
    (ns : List SubmittableResult) : TransactRun :=
  if !apiConnected then
    { outcome := RunOutcome.err apiNotConnectedMsg
      signerCalls := 0, counterIncrements := 0 }
  else
    match promiseSettle mnemonicCallback ns with
    | some (Except.ok r) =>
      { outcome := RunOutcome.ok
          { success := r.success
            txHash := some r.transactionHash
            blockHash := some r.blockhash }
        signerCalls := 1, counterIncrements := 0 }
    | some (Except.error e) =>
      { outcome := RunOutcome.err (mnemonicFailMsg ++ e)
        signerCalls := 1, counterIncrements := 0 }
    | Option.none =>
      { outcome := RunOutcome.pending
        signerCalls := 1, counterIncrements := 0 }

/-- Capability of the chain client used by transactSigned: rehydrate a
serialized transaction (api.tx of the hex string) and read its signature
as a hex string (signature.toHex). -/
structure ApiPromise where
  decodeSignature : String → String

def transferSubmittableMissingMsg : String :=
  "PluginLedgerConnectorPolkadot#transactSigned():req.transactionConfig.transferSubmittable"

def txNotSignedMsg : String :=
  "PluginLedgerConnectorPolkadot#transactSigned() Transaction is not signed. "

def txSignatureInvalidMsg : String :=
  "PluginLedgerConnectorPolkadot#transactSigned() Transaction signature is not valid. "

def rawFailMsg : String :=
  "PluginLedgerConnectorPolkadot#transactSigned() The transaction submission failed. InnerException: "

/-- transactSigned: validates the pre-signed payload is present, checks
the api connection, validates the rehydrated transaction's signature
(emptiness, then hex encoding), then bridges the
submitAndWatchExtrinsic subscription; the Prometheus counter is
incremented after a successful await. -/
def transactSigned (api : Option ApiPromise)
    (transactionConfig : TransactionConfig)
    (ns : List ExtrinsicStatusNotification) : TransactRun :=
  match transactionConfig.transferSubmittable with
  | Option.none =>
    { outcome := RunOutcome.err transferSubmittableMissingMsg
      signerCalls := 0, counterIncrements := 0 }
  | some signedTx =>
    match api with
    | Option.none =>
      { outcome := RunOutcome.err apiNotConnectedMsg
        signerCalls := 0, counterIncrements := 0 }
    | some api =>
      let signature := api.decodeSignature signedTx
      if signature = "" then
        { outcome := RunOutcome.err txNotSignedMsg
          signerCalls := 0, counterIncrements := 0 }
      else if !isHex signature then
        { outcome := RunOutcome.err txSignatureInvalidMsg
          signerCalls := 0, counterIncrements := 0 }
      else
        match promiseSettle signedCallback ns with
        | some (Except.ok r) =>
          { outcome := RunOutcome.ok
              { success := true
                txHash := some r.transactionHash
                blockHash := some r.blockhash }
            signerCalls := 1, counterIncrements := 1 }
        | some (Except.error e) =>
          { outcome := RunOutcome.err (rawFailMsg ++ e)
            signerCalls := 1, counterIncrements := 0 }
        | Option.none =>
          { outcome := RunOutcome.pending
            signerCalls := 1, counterIncrements := 0 }

/-- The secret-store capability of one keychain plugin:
lookup of an entry key, Option.none when the entry is absent. -/
structure KeychainPlugin where
  get : String → Option String

/-- pluginRegistry.findOneByKeychainId over the registered plugins. -/
def findOneByKeychainId (pluginRegistry : List (String × KeychainPlugin))
    (keychainId : String) : Option KeychainPlugin :=
  (pluginRegistry.find? (fun p => p.fst == keychainId)).map Prod.snd

def keychainNotFoundMsg (keychainId : String) : String :=
  "PluginLedgerConnectorPolkadot#transactCactusKeychainRef() keychain for ID:" ++
    keychainId

/-- Modelled from the spec: the secret-store lookup of a missing entry
rejects the call (the keychain plugin implementation is not under src);
the rejection propagates out of transactCactusKeychainRef unwrapped. -/
def keychainEntryMissingMsg : String :=
  "keychain entry not found"

/-- transactCactusKeychainRef: locates the keychain plugin for the
credential's keychainId (hard error when absent, before any signing),
looks up the mnemonic under the entry key, and recurses into the
MnemonicString path with the retrieved secret and the same
transactionConfig. -/
def transactCactusKeychainRef (apiConnected : Bool)
    (pluginRegistry : List (String × KeychainPlugin))
    (keychainId keychainEntryKey : String)
    (transactionConfig : TransactionConfig)
    (ns : List SubmittableResult) : TransactRun :=
  match findOneByKeychainId pluginRegistry keychainId with
  | Option.none =>
    { outcome := RunOutcome.err (keychainNotFoundMsg keychainId)
      signerCalls := 0, counterIncrements := 0 }
  | some keychainPlugin =>
    match keychainPlugin.get keychainEntryKey with
    | Option.none =>
      { outcome := RunOutcome.err keychainEntryMissingMsg
        signerCalls := 0, counterIncrements := 0 }
    | some mnemonic =>
      transactMnemonicString apiConnected mnemonic transactionConfig ns

/-- The Web3SigningCredential tagged union: a raw mnemonic, a reference
into a keychain secret store, or the None variant used with an already
pre-signed payload. -/
inductive Web3SigningCredential where
  | mnemonicString (mnemonic : String)
  | cactusKeychainRef (keychainId keychainEntryKey : String)
  | noneType
deriving DecidableEq

/-- Modelled from the spec: the model-type-guards module (only imported
by the code under src) discriminates the credential union by its type
tag; this guard holds exactly for the None (pre-signed) variant. -/
def isWeb3SigningCredentialNone : Web3SigningCredential → Bool
  | .noneType => true
  | _ => false

/-- Modelled from the spec: guard for the MnemonicString variant. -/
def isWeb3SigningCredentialMnemonicString : Web3SigningCredential → Bool
  | .mnemonicString _ => true
  | _ => false

/-- Modelled from the spec: guard for the CactusKeychainRef variant. -/
def isWeb3SigningCredentialCactusRef : Web3SigningCredential → Bool
  | .cactusKeychainRef _ _ => true
  | _ => false

/-- One constructor entry of the parsed contract Abi. -/
structure AbiConstructor where
  method : String
deriving DecidableEq

/-- The parsed contract Abi (the request's metadata after the external
Abi codec has parsed it). -/
structure Abi where
  constructors : List AbiConstructor
deriving DecidableEq

/-- The DeployContractInkRequest data contract; metadata is carried
already parsed, since the Abi codec is an external capability. -/
structure DeployContractInkRequest where
  wasm : String
  metadata : Abi
  gasLimitRefTime : Nat
  gasLimitProofSize : Nat
  storageDepositLimit : Option Nat
  salt : Option String
  balance : Option Nat
  params : Option (List String)
  web3SigningCredential : Web3SigningCredential
deriving DecidableEq

/-- The instantiate call handed to the chain client: the selected
constructor method, the call options, and the encoder's positional
argument list, in which Option.none is the implicit undefined marker
passed when the request has no params. -/
structure InstantiateCall where
  constructorMethod : String
  gasLimitRefTime : Nat
  gasLimitProofSize : Nat
  storageDepositLimit : Option Nat
  salt : Option String
  value : Option Nat
  args : List (Option String)
deriving DecidableEq

/-- Builds the instantiate call of deployContract from a selected
constructor: contractCode.tx of the constructor's method, with the
options object and either the spread params (when present and nonempty)
or the single undefined argument. -/
def mkInstantiateCall (c0 : AbiConstructor)
    (req : DeployContractInkRequest) : InstantiateCall :=
  { constructorMethod := c0.method
    gasLimitRefTime := req.gasLimitRefTime
    gasLimitProofSize := req.gasLimitProofSize
    storageDepositLimit := req.storageDepositLimit
    salt := req.salt
    value := req.balance
    args :=
      match req.params with
      | some ps => if 0 < ps.length then ps.map some else [Option.none]
      | Option.none => [Option.none] }

/-- A node-side dispatch error attached to a deployment notification:
either a module error (decodable by registry.findMetaError to section,
name and docs) or another error rendered by toString. -/
inductive DispatchError where
  | moduleErr (sectionName name : String) (docs : List String)
  | other (msg : String)
deriving DecidableEq

/-- Best-effort rendering of a dispatch error, as interpolated into the
error thrown inside the deployment callback. -/
def decodeDispatchError : DispatchError → String
  | .moduleErr s n docs => s ++ "." ++ n ++ ": " ++ String.intercalate " " docs
  | .other msg => msg

/-- One signAndSend notification on the deployment path, as destructured
by the callback: the instantiated contract's address, the status, and
the optional dispatch error attached to the notification. -/
structure DeployNotification where
  contractAddress : String
  status : TxStatus
  dispatchError : Option DispatchError
deriving DecidableEq

/-- Value of the inner Promise of deployContract. -/
structure DeployResult where
  success : Bool
  address : Option String
deriving DecidableEq

/-- The deployment callback: acts on the first notification whose status
is isInBlock or isFinalized; rejects (with a thrown diagnostic carrying
the decoded dispatch error) when a dispatch error is attached, else
resolves with the contract's address. -/
def deployCallback (n : DeployNotification) :
    CallbackEffect DeployResult String :=
  if n.status.isInBlock || n.status.isFinalized then
    match n.dispatchError with
    | some de =>
      { action := some (Except.error "deployment not successful")
        diag := some (decodeDispatchError de) }
    | Option.none =>
      { action := some (Except.ok
          { success := true, address := some n.contractAddress })
        diag := Option.none }
  else { action := Option.none, diag := Option.none }

/-- The DeployContractInkResponse data contract (success and address). -/
structure DeployContractInkResponse where
  success : Bool
  address : Option String
deriving DecidableEq

/-- Terminal behaviour of one deployContract call. -/
inductive DeployOutcome where
  | ok (resp : DeployContractInkResponse)
  | err (msg : String)
  | pending
deriving DecidableEq

/-- Observable run of deployContract: outcome, sign-and-submit calls to
the chain client, and Prometheus counter increments. -/
structure DeployRun where
  outcome : DeployOutcome
  signerCalls : Nat
  counterIncrements : Nat
deriving DecidableEq

def cannotDeployPreSignedMsg : String :=
  "PluginLedgerConnectorPolkadot#deployContract() Cannot deploy contract with pre-signed TX"

def deployKeychainNotFoundMsg (keychainId : String) : String :=
  "PluginLedgerConnectorPolkadot#deployContract() keychain for ID:" ++ keychainId

def unrecognizedCredentialMsg : String :=
  "PluginLedgerConnectorPolkadot#deployContract() Unrecognized Web3SigningCredentialType"

def deployFailMsg : String :=
  "PluginLedgerConnectorPolkadot#deployContract() The contract upload and deployment failed. InnerException: "

/-- The credential resolution prelude of deployContract, entered after
the None variant has been rejected: a mnemonic string is used directly,
a keychain reference is resolved through the plugin registry (hard error
when the keychain is absent, rejection when the entry is absent), and
the final branch of the guard chain reports an unrecognized type. -/
def resolveDeployMnemonic (pluginRegistry : List (String × KeychainPlugin)) :
    Web3SigningCredential → Except String String
  | .mnemonicString mnemonic => Except.ok mnemonic
  | .cactusKeychainRef keychainId keychainEntryKey =>
    match findOneByKeychainId pluginRegistry keychainId with
    | Option.none => Except.error (deployKeychainNotFoundMsg keychainId)
    | some keychainPlugin =>
      match keychainPlugin.get keychainEntryKey with
      | Option.none => Except.error keychainEntryMissingMsg
      | some mnemonic => Except.ok mnemonic
  | .noneType => Except.error unrecognizedCredentialMsg

/-- The thrown TypeError of reading the method of constructors at index
0 when the parsed Abi declares no constructor, wrapped by the catch of
deployContract. -/
def deployNoConstructorMsg : String :=
  deployFailMsg ++ "TypeError: reading method of undefined"

/-- deployContract: checks the api connection, rejects the None
credential, resolves the mnemonic, selects the constructor at index 0 of
the parsed Abi, builds the instantiate call, and bridges the signAndSend
subscription over the deployment notifications; after a completed await,
the Prometheus counter is incremented exactly when no address was
obtained. -/
def deployContract (apiConnected : Bool)
    (pluginRegistry : List (String × KeychainPlugin))
    (req : DeployContractInkRequest)
    (ns : List DeployNotification) : DeployRun :=
  if !apiConnected then
    { outcome := DeployOutcome.err apiNotConnectedMsg
      signerCalls := 0, counterIncrements := 0 }
  else if isWeb3SigningCredentialNone req.web3SigningCredential then
    { outcome := DeployOutcome.err cannotDeployPreSignedMsg
      signerCalls := 0, counterIncrements := 0 }
  else
    match resolveDeployMnemonic pluginRegistry req.web3SigningCredential with
    | Except.error msg =>
      { outcome := DeployOutcome.err msg
        signerCalls := 0, counterIncrements := 0 }
    | Except.ok mnemonic =>
      match req.metadata.constructors.head? with
      | Option.none =>
        { outcome := DeployOutcome.err deployNoConstructorMsg
          signerCalls := 0, counterIncrements := 0 }
      | some c0 =>
        match (some (mkInstantiateCall c0 req) : Option InstantiateCall) with
        | Option.none =>
          { outcome := DeployOutcome.ok
              { success := false, address := Option.none }
            signerCalls := 0, counterIncrements := 1 }
        | some _tx =>
          match promiseSettle deployCallback ns with
          | some (Except.ok r) =>
            { outcome := DeployOutcome.ok
                { success := r.success, address := r.address }
              signerCalls := 1
              counterIncrements := if r.address.isNone then 1 else 0 }
          | some (Except.error e) =>
            { outcome := DeployOutcome.err (deployFailMsg ++ e)
              signerCalls := 1, counterIncrements := 0 }
          | Option.none =>
            { outcome := DeployOutcome.pending
              signerCalls := 1, counterIncrements := 0 }

/-- The chain state queried by obtainTransactionInformation: the current
block header (number and hash) and the per-account sequence number. -/
structure ChainState where
  blockNumber : Nat
  blockHash : List Nat
  accountNonce : String → Nat

/-- The era descriptor created by createType ExtrinsicEra: the current
block and the validity period, captured as given (the extrinsic-era
binary encoding is an external codec capability). -/
structure Era where
  current : Nat
  period : Nat
deriving DecidableEq

/-- The response_data triple of a TransactionInfoResponse. -/
structure TransactionInfoData where
  nonce : Nat
  blockHash : List Nat
  era : Era
deriving DecidableEq

/-- obtainTransactionInformation: queries the current block and account
nonce and builds the era from the current block number and the request's
transactionExpiration; the expiration defaults to 50 via a JavaScript
or-else, so the falsy value 0 also falls back to 50. -/
def obtainTransactionInformation (api : Option ChainState)
    (accountAddress : String) (transactionExpiration : Option Nat) :
    Except String TransactionInfoData :=
  match api with
  | Option.none => Except.error apiNotConnectedMsg
  | some st =>
    let expiration :=
      match transactionExpiration with
      | some n => if n = 0 then 50 else n
      | Option.none => 50
    Except.ok
      { nonce := st.accountNonce accountAddress
        blockHash := st.blockHash
        era := { current := st.blockNumber, period := expiration } }

/-- toHex always renders a nonempty string. -/
theorem toHex_ne_empty (bs : List Nat) : toHex bs ≠ "" := by
  intro h
  have hdata := congrArg String.data h
  simp [toHex] at hdata

/-- The settled value of the promise is unchanged by a prefix of
notifications on which the callback takes no action. -/
theorem promiseSettle_append_of_none {N R D : Type}
    (cb : N → CallbackEffect R D) (pre l : List N)
    (h : ∀ m ∈ pre, (cb m).action = Option.none) :
    promiseSettle cb (pre ++ l) = promiseSettle cb l := by
  induction pre with
  | nil => rfl
  | cons m pre ih =>
    have hm : (cb m).action = Option.none := h m (List.mem_cons_self m pre)
    simp only [List.cons_append, promiseSettle, hm]
    exact ih (fun x hx => h x (List.mem_cons_of_mem m hx))

/-- The promise stays pending over a sequence on which the callback
never takes an action. -/
theorem promiseSettle_eq_none {N R D : Type}
    (cb : N → CallbackEffect R D) (ns : List N)
    (h : ∀ m ∈ ns, (cb m).action = Option.none) :
    promiseSettle cb ns = Option.none := by
  induction ns with
  | nil => rfl
  | cons m ns ih =>
    have hm : (cb m).action = Option.none := h m (List.mem_cons_self m ns)
    simp only [promiseSettle, hm]
    exact ih (fun x hx => h x (List.mem_cons_of_mem m hx))

/-- The promise settles with the first notification's action when that
action is decisive, whatever arrives later. -/
theorem promiseSettle_cons_of_some {N R D : Type}
    (cb : N → CallbackEffect R D) (n : N) (l : List N) (r : Except String R)
    (h : (cb n).action = some r) :
    promiseSettle cb (n :: l) = some r := by
  simp only [promiseSettle, h]

/-- Every settled value is the action of some notification of the
sequence. -/
theorem promiseSettle_mem {N R D : Type}
    (cb : N → CallbackEffect R D) (ns : List N) (r : Except String R)
    (h : promiseSettle cb ns = some r) :
    ∃ n ∈ ns, (cb n).action = some r := by
  induction ns with
  | nil => simp [promiseSettle] at h
  | cons m ns ih =>
    by_cases hm : (cb m).action = Option.none
    · simp only [promiseSettle, hm] at h
      obtain ⟨n, hn, ha⟩ := ih h
      exact ⟨n, List.mem_cons_of_mem m hn, ha⟩
    · obtain ⟨x, hx⟩ := Option.ne_none_iff_exists.mp hm
      simp only [promiseSettle, ← hx] at h
      exact ⟨m, List.mem_cons_self m ns, by rw [← hx, h]⟩

/-- A diagnostic thrown at any notification of the sequence is
collected. -/
theorem mem_callbackDiags {N R D : Type}
    (cb : N → CallbackEffect R D) (ns : List N) (n : N) (d : D)
    (hn : n ∈ ns) (hd : (cb n).diag = some d) :
    d ∈ callbackDiags cb ns := by
  simp only [callbackDiags, List.mem_filterMap]
  exact ⟨n, hn, hd⟩

/-- The keypair-path callback takes no action on a notification whose
status is not block inclusion. -/
theorem mnemonicCallback_action_none (m : SubmittableResult)
    (h : m.status.isInBlock = false) :
    (mnemonicCallback m).action = Option.none := by
  simp [mnemonicCallback, h]

/-- Every resolution of the keypair-path callback carries success and
the two hashes rendered by toHex. -/
theorem mnemonicCallback_ok_shape (n : SubmittableResult) (r : TxResult)
    (h : (mnemonicCallback n).action = some (Except.ok r)) :
    r.success = true ∧
      (∃ a, r.transactionHash = toHex a) ∧ ∃ b, r.blockhash = toHex b := by
  by_cases hib : n.status.isInBlock
  · cases hf : n.events.find? isExtrinsicSuccessEvent with
    | some e =>
      simp only [mnemonicCallback, hib, if_true, hf] at h
      obtain h := (Except.ok.injEq _ _ |>.mp (Option.some.injEq _ _ |>.mp h))
      refine ⟨?_, ⟨n.txHash, ?_⟩, ⟨n.status.asInBlock, ?_⟩⟩ <;> rw [← h]
    | none =>
      simp [mnemonicCallback, hib, hf] at h
  · simp [mnemonicCallback, hib] at h

/-- Every resolution of the raw-path callback carries success and the
two hashes rendered by toHex. -/
theorem signedCallback_ok_shape (n : ExtrinsicStatusNotification)
    (r : TxResult)
    (h : (signedCallback n).action = some (Except.ok r)) :
    r.success = true ∧
      (∃ a, r.transactionHash = toHex a) ∧ ∃ b, r.blockhash = toHex b := by
  by_cases hib : n.status.isInBlock
  · simp only [signedCallback, hib, if_true] at h
    obtain h := (Except.ok.injEq _ _ |>.mp (Option.some.injEq _ _ |>.mp h))
    refine ⟨?_, ⟨n.hash, ?_⟩, ⟨n.status.asInBlock, ?_⟩⟩ <;> rw [← h]
  · simp [signedCallback, hib] at h

/-- Every resolution of the deployment callback carries success and a
present contract address. -/
theorem deployCallback_ok_shape (n : DeployNotification) (r : DeployResult)
    (h : (deployCallback n).action = some (Except.ok r)) :
    r.success = true ∧ r.address = some n.contractAddress := by
  by_cases hd : n.status.isInBlock || n.status.isFinalized
  · cases he : n.dispatchError with
    | some de => simp [deployCallback, hd, he] at h
    | none =>
      simp only [deployCallback, hd, if_true, he] at h
      obtain h := (Except.ok.injEq _ _ |>.mp (Option.some.injEq _ _ |>.mp h))
      exact ⟨by rw [← h], by rw [← h]⟩
  · simp [deployCallback, hd] at h

/-- C2: for every deployment request whose signing credential is the
PreSigned/None variant, deployContract (with a connected api) fails with
the unsupported-credential error, regardless of all other request
parameters, and performs no chain submission (zero signer calls). -/
theorem C2_deploy_presigned_always_rejected :
    ∀ (pluginRegistry : List (String × KeychainPlugin))
      (req : DeployContractInkRequest) (ns : List DeployNotification),
      req.web3SigningCredential = Web3SigningCredential.noneType →
      deployContract true pluginRegistry req ns =
        { outcome := DeployOutcome.err cannotDeployPreSignedMsg
          signerCalls := 0, counterIncrements := 0 } := by
  intro pluginRegistry req ns h
  simp [deployContract, isWeb3SigningCredentialNone, h]

/-- C2 witness: a concrete deployment request with the None credential is
rejected with the unsupported-credential error and no submission. -/
theorem C2_witness :
    deployContract true []
        ⟨"wasm", ⟨[⟨"new"⟩]⟩, 1, 2, Option.none, Option.none, Option.none,
          some ["false"], Web3SigningCredential.noneType⟩ [] =
      { outcome := DeployOutcome.err cannotDeployPreSignedMsg
        signerCalls := 0, counterIncrements := 0 } :=
  C2_deploy_presigned_always_rejected []
    ⟨"wasm", ⟨[⟨"new"⟩]⟩, 1, 2, Option.none, Option.none, Option.none,
      some ["false"], Web3SigningCredential.noneType⟩ [] rfl

/-- C3: transactSigned fails with the unsigned-transaction error when the
rehydrated transaction carries no signature, and with the
invalid-signature-encoding error when the signature is not valid hex; in
both cases zero submission calls are made to the node. -/
theorem C3_presigned_validation_before_submission :
    (∀ (api : ApiPromise) (cfg : TransactionConfig) (tx : String)
       (ns : List ExtrinsicStatusNotification),
       cfg.transferSubmittable = some tx →
       api.decodeSignature tx = "" →
       transactSigned (some api) cfg ns =
         { outcome := RunOutcome.err txNotSignedMsg
           signerCalls := 0, counterIncrements := 0 })
    ∧ (∀ (api : ApiPromise) (cfg : TransactionConfig) (tx : String)
       (ns : List ExtrinsicStatusNotification),
       cfg.transferSubmittable = some tx →
       api.decodeSignature tx ≠ "" →
       isHex (api.decodeSignature tx) = false →
       transactSigned (some api) cfg ns =
         { outcome := RunOutcome.err txSignatureInvalidMsg
           signerCalls := 0, counterIncrements := 0 }) := by
  constructor
  · intro api cfg tx ns hcfg hsig
    simp [transactSigned, hcfg, hsig]
  · intro api cfg tx ns hcfg hne hhex
    simp [transactSigned, hcfg, hne, hhex]

/-- C3 witness: an empty signature and a non-hex signature fail with the
two validation errors before any submission, at concrete inputs. -/
theorem C3_witness :
    transactSigned (some ⟨fun _ => ""⟩)
        ⟨Option.none, Option.none, some "0xab"⟩ [] =
      { outcome := RunOutcome.err txNotSignedMsg
        signerCalls := 0, counterIncrements := 0 }
    ∧ transactSigned (some ⟨fun _ => "zz"⟩)
        ⟨Option.none, Option.none, some "0xab"⟩ [] =
      { outcome := RunOutcome.err txSignatureInvalidMsg
        signerCalls := 0, counterIncrements := 0 } :=
  ⟨C3_presigned_validation_before_submission.1 ⟨fun _ => ""⟩
      ⟨Option.none, Option.none, some "0xab"⟩ "0xab" [] rfl rfl,
    C3_presigned_validation_before_submission.2 ⟨fun _ => "zz"⟩
      ⟨Option.none, Option.none, some "0xab"⟩ "0xab" [] rfl
      (by decide) (by decide)⟩

/-- C7: when the keychain lookup succeeds with secret s, the
keychain-reference path returns exactly the run of the MnemonicString
path invoked with mnemonic s and the same transaction config; when the
keychain is absent, it fails with the credential-not-found error with
zero signer calls. -/
theorem C7_keychain_ref_refines_mnemonic :
    (∀ (apiConnected : Bool)
       (pluginRegistry : List (String × KeychainPlugin))
       (keychainId keychainEntryKey : String) (cfg : TransactionConfig)
       (ns : List SubmittableResult) (kp : KeychainPlugin) (s : String),
       findOneByKeychainId pluginRegistry keychainId = some kp →
       kp.get keychainEntryKey = some s →
       transactCactusKeychainRef apiConnected pluginRegistry keychainId
           keychainEntryKey cfg ns =
         transactMnemonicString apiConnected s cfg ns)
    ∧ (∀ (apiConnected : Bool)
       (pluginRegistry : List (String × KeychainPlugin))
       (keychainId keychainEntryKey : String) (cfg : TransactionConfig)
       (ns : List SubmittableResult),
       findOneByKeychainId pluginRegistry keychainId = Option.none →
       transactCactusKeychainRef apiConnected pluginRegistry keychainId
           keychainEntryKey cfg ns =
         { outcome := RunOutcome.err (keychainNotFoundMsg keychainId)
           signerCalls := 0, counterIncrements := 0 }) := by
  constructor
  · intro apiConnected pluginRegistry keychainId keychainEntryKey cfg ns kp s h1 h2
    simp [transactCactusKeychainRef, h1, h2]
  · intro apiConnected pluginRegistry keychainId keychainEntryKey cfg ns h1
    simp [transactCactusKeychainRef, h1]

/-- C7 witness: with a concrete one-plugin registry, the reference path
equals the mnemonic path on the stored secret, and a missing keychain ID
fails with the credential-not-found error. -/
theorem C7_witness :
    transactCactusKeychainRef true
        [("kc1", ⟨fun k => if k = "key1" then some "//Bob" else Option.none⟩)]
        "kc1" "key1" ⟨some "5G", some 20, Option.none⟩ [] =
      transactMnemonicString true "//Bob" ⟨some "5G", some 20, Option.none⟩ []
    ∧ transactCactusKeychainRef true
        [("kc1", ⟨fun k => if k = "key1" then some "//Bob" else Option.none⟩)]
        "missing" "key1" ⟨some "5G", some 20, Option.none⟩ [] =
      { outcome := RunOutcome.err (keychainNotFoundMsg "missing")
        signerCalls := 0, counterIncrements := 0 } :=
  ⟨C7_keychain_ref_refines_mnemonic.1 true
      [("kc1", ⟨fun k => if k = "key1" then some "//Bob" else Option.none⟩)]
      "kc1" "key1" ⟨some "5G", some 20, Option.none⟩ []
      ⟨fun k => if k = "key1" then some "//Bob" else Option.none⟩ "//Bob"
      rfl rfl,
    C7_keychain_ref_refines_mnemonic.2 true
      [("kc1", ⟨fun k => if k = "key1" then some "//Bob" else Option.none⟩)]
      "missing" "key1" ⟨some "5G", some 20, Option.none⟩ [] rfl⟩

/-- C8: the instantiate call of deployContract targets the constructor at
index 0 of the parsed Abi, and when the request's params are absent or
empty a single implicit undefined marker is encoded instead of an empty
argument list; nonempty params are passed positionally. -/
theorem C8_constructor_zero_and_undefined_marker :
    ∀ (req : DeployContractInkRequest) (c0 : AbiConstructor)
      (rest : List AbiConstructor),
      req.metadata.constructors = c0 :: rest →
      req.metadata.constructors.head? = some c0
      ∧ (mkInstantiateCall c0 req).constructorMethod = c0.method
      ∧ ((req.params = Option.none ∨ req.params = some []) →
          (mkInstantiateCall c0 req).args = [Option.none])
      ∧ (∀ ps, req.params = some ps → 0 < ps.length →
          (mkInstantiateCall c0 req).args = ps.map some) := by
  intro req c0 rest h
  refine ⟨by simp [h], rfl, ?_, ?_⟩
  · rintro (hp | hp) <;> simp [mkInstantiateCall, hp]
  · intro ps hp hl
    simp [mkInstantiateCall, hp, hl]

/-- C8 witness: a concrete two-constructor Abi with absent params yields
the first constructor's method and the single undefined marker. -/
theorem C8_witness :
    (mkInstantiateCall ⟨"new"⟩
        ⟨"w", ⟨[⟨"new"⟩, ⟨"other"⟩]⟩, 1, 2, Option.none, Option.none,
          Option.none, Option.none,
          Web3SigningCredential.mnemonicString "//Alice"⟩).constructorMethod
      = "new"
    ∧ (mkInstantiateCall ⟨"new"⟩
        ⟨"w", ⟨[⟨"new"⟩, ⟨"other"⟩]⟩, 1, 2, Option.none, Option.none,
          Option.none, Option.none,
          Web3SigningCredential.mnemonicString "//Alice"⟩).args
      = [Option.none] := by
  have h := C8_constructor_zero_and_undefined_marker
    ⟨"w", ⟨[⟨"new"⟩, ⟨"other"⟩]⟩, 1, 2, Option.none, Option.none,
      Option.none, Option.none,
      Web3SigningCredential.mnemonicString "//Alice"⟩
    ⟨"new"⟩ [⟨"other"⟩] rfl
  exact ⟨h.2.1, h.2.2.1 (Or.inl rfl)⟩

/-- C9 counterexample: the claim says the era window always equals the
supplied validityWindow parameter, but obtainTransactionInformation maps
the supplied window 0 to 50 through the JavaScript or-else default. -/
theorem C9_counterexample :
    obtainTransactionInformation (some ⟨7, [1], fun _ => 3⟩) "addr" (some 0)
      = Except.ok ⟨3, [1], ⟨7, 50⟩⟩
    ∧ (50 : Nat) ≠ 0 :=
  ⟨rfl, by decide⟩

/-- C9 (amended): the era of getInfo spans the supplied window when that
window is nonzero (a zero window falls back to 50, as does an absent
one), starts at the queried current block, and the nonce and blockHash
components depend only on the chain state and account, not on the
window. -/
theorem C9_era_window_and_frame :
    ∀ (st : ChainState) (accountAddress : String) (w : Nat),
      (0 < w →
        obtainTransactionInformation (some st) accountAddress (some w)
          = Except.ok ⟨st.accountNonce accountAddress, st.blockHash,
              ⟨st.blockNumber, w⟩⟩)
      ∧ obtainTransactionInformation (some st) accountAddress Option.none
          = Except.ok ⟨st.accountNonce accountAddress, st.blockHash,
              ⟨st.blockNumber, 50⟩⟩ := by
  intro st accountAddress w
  constructor
  · intro hw
    simp [obtainTransactionInformation, Nat.pos_iff_ne_zero.mp hw]
  · rfl

/-- C9 witness: at a concrete chain state, the window 50 is encoded as
supplied and the absent window defaults to 50, with identical nonce and
blockHash. -/
theorem C9_witness :
    obtainTransactionInformation (some ⟨7, [1], fun _ => 3⟩) "a" (some 50)
      = Except.ok ⟨3, [1], ⟨7, 50⟩⟩
    ∧ obtainTransactionInformation (some ⟨7, [1], fun _ => 3⟩) "a" Option.none
      = Except.ok ⟨3, [1], ⟨7, 50⟩⟩ :=
  ⟨(C9_era_window_and_frame ⟨7, [1], fun _ => 3⟩ "a" 50).1 (by decide),
    (C9_era_window_and_frame ⟨7, [1], fun _ => 3⟩ "a" 50).2⟩

/-- C1 counterexample: the claim says the failure outcome carries the raw
event list, but the keypair-path bridge rejects with the same literal
reject reason for different event lists (the event list only appears in
a diagnostic thrown inside the callback, which the caller never sees),
so the outcome delivered to the caller cannot carry the event list. -/
theorem C1_counterexample :
    promiseSettle mnemonicCallback
        [⟨[⟨"system", "ExtrinsicFailed"⟩], TxStatus.inBlock [1], [2]⟩]
      = some (Except.error "transaction not successful")
    ∧ promiseSettle mnemonicCallback [⟨[], TxStatus.inBlock [1], [2]⟩]
      = some (Except.error "transaction not successful")
    ∧ ([⟨"system", "ExtrinsicFailed"⟩] : List Event) ≠ [] :=
  ⟨rfl, rfl, by decide⟩

/-- C1 (amended): the keypair-path bridge acts only on the first
notification whose status is block inclusion; when that notification's
events contain a system ExtrinsicSuccess event, the promise resolves
with success and the submission and block hashes; when the event is
absent, the promise rejects with the literal failure reason while the
raw event list is carried only by a thrown diagnostic. -/
theorem C1_first_inclusion_decides :
    ∀ (pre : List SubmittableResult) (n : SubmittableResult)
      (rest : List SubmittableResult),
      (∀ m ∈ pre, m.status.isInBlock = false) →
      n.status.isInBlock = true →
      (∀ e, n.events.find? isExtrinsicSuccessEvent = some e →
        promiseSettle mnemonicCallback (pre ++ n :: rest)
          = some (Except.ok
              ⟨true, toHex n.txHash, toHex n.status.asInBlock⟩))
      ∧ (n.events.find? isExtrinsicSuccessEvent = Option.none →
        promiseSettle mnemonicCallback (pre ++ n :: rest)
          = some (Except.error "transaction not successful")
        ∧ n.events ∈ callbackDiags mnemonicCallback (pre ++ n :: rest)) := by
  intro pre n rest hpre hib
  have hskip := promiseSettle_append_of_none mnemonicCallback pre (n :: rest)
    (fun m hm => mnemonicCallback_action_none m (hpre m hm))
  constructor
  · intro e he
    rw [hskip]
    apply promiseSettle_cons_of_some
    simp [mnemonicCallback, hib, he]
  · intro he
    refine ⟨?_, ?_⟩
    · rw [hskip]
      apply promiseSettle_cons_of_some
      simp [mnemonicCallback, hib, he]
    · apply mem_callbackDiags mnemonicCallback _ n
      · exact List.mem_append_right pre (List.mem_cons_self n rest)
      · simp [mnemonicCallback, hib, he]

/-- C1 witness: a single inclusion notification carrying the
ExtrinsicSuccess event resolves with success and the two hashes. -/
theorem C1_witness :
    promiseSettle mnemonicCallback
        [⟨[⟨"system", "ExtrinsicSuccess"⟩], TxStatus.inBlock [3], [4]⟩]
      = some (Except.ok ⟨true, toHex [4], toHex [3]⟩) :=
  (C1_first_inclusion_decides []
      ⟨[⟨"system", "ExtrinsicSuccess"⟩], TxStatus.inBlock [3], [4]⟩ []
      (by simp) rfl).1 ⟨"system", "ExtrinsicSuccess"⟩ rfl

/-- C4 counterexample: the claim says neither path ever leaves the call
pending when the node never reports inclusion, but on the keypair path a
dropped notification takes no action, so the caller's promise stays
pending forever. -/
theorem C4_counterexample :
    (transactMnemonicString true "//Alice" ⟨some "5G", some 20, Option.none⟩
        [⟨[], TxStatus.dropped, [7]⟩]).outcome = RunOutcome.pending := rfl

/-- C4 (amended): when no notification reports block inclusion, the
keypair path leaves the caller's call pending forever, while the raw
pre-signed path rejects on the first notification with the generic
failure message that does not carry the status tag. -/
theorem C4_no_inclusion_behaviour :
    (∀ (mnemonic : String) (cfg : TransactionConfig)
       (ns : List SubmittableResult),
       (∀ m ∈ ns, m.status.isInBlock = false) →
       (transactMnemonicString true mnemonic cfg ns).outcome
         = RunOutcome.pending)
    ∧ (∀ (api : ApiPromise) (cfg : TransactionConfig) (tx : String)
       (n : ExtrinsicStatusNotification)
       (rest : List ExtrinsicStatusNotification),
       cfg.transferSubmittable = some tx →
       api.decodeSignature tx ≠ "" →
       isHex (api.decodeSignature tx) = true →
       n.status.isInBlock = false →
       (transactSigned (some api) cfg (n :: rest)).outcome
         = RunOutcome.err (rawFailMsg ++ "transaction not successful")) := by
  constructor
  · intro mnemonic cfg ns h
    have hn := promiseSettle_eq_none mnemonicCallback ns
      (fun m hm => mnemonicCallback_action_none m (h m hm))
    simp [transactMnemonicString, hn]
  · intro api cfg tx n rest hcfg hne hhex hn
    have hs : promiseSettle signedCallback (n :: rest)
        = some (Except.error "transaction not successful") :=
      promiseSettle_cons_of_some _ _ _ _ (by simp [signedCallback, hn])
    simp [transactSigned, hcfg, hne, hhex, hs]

/-- C4 witness: a concrete invalid-status sequence leaves the keypair
path pending, and a concrete usurped-status sequence rejects the raw
path with the generic failure message. -/
theorem C4_witness :
    (transactMnemonicString true "//Bob" ⟨some "5G", some 1, Option.none⟩
        [⟨[], TxStatus.invalid, []⟩]).outcome = RunOutcome.pending
    ∧ (transactSigned (some ⟨fun _ => "0x00"⟩)
        ⟨Option.none, Option.none, some "0xsigned"⟩
        [⟨TxStatus.usurped, [9]⟩]).outcome
      = RunOutcome.err (rawFailMsg ++ "transaction not successful") :=
  ⟨C4_no_inclusion_behaviour.1 "//Bob" ⟨some "5G", some 1, Option.none⟩
      [⟨[], TxStatus.invalid, []⟩] (by decide),
    C4_no_inclusion_behaviour.2 ⟨fun _ => "0x00"⟩
      ⟨Option.none, Option.none, some "0xsigned"⟩ "0xsigned"
      ⟨TxStatus.usurped, [9]⟩ [] rfl (by decide) (by decide) rfl⟩

/-- C5 counterexample: the claim says both paths ignore every
non-inclusion notification, but on the raw pre-signed path a ready
notification (followed by an actual inclusion) rejects the call
immediately, so the committed outcome is a failure. -/
theorem C5_counterexample :
    (transactSigned (some ⟨fun _ => "0xab"⟩)
        ⟨Option.none, Option.none, some "0xtx"⟩
        [⟨TxStatus.ready, [1]⟩, ⟨TxStatus.inBlock [2], [1]⟩]).outcome
      = RunOutcome.err (rawFailMsg ++ "transaction not successful")
    ∧ TxStatus.ready.isInBlock = false :=
  ⟨rfl, rfl⟩

/-- C5 (amended): the keypair path ignores every notification before the
first block-inclusion notification and commits exactly the action of
that notification, whatever arrives later; the raw path commits exactly
the action of the very first notification of any status; on both paths
the committed action is decisive (the promise settles) and later
notifications cannot change it. -/
theorem C5_commit_points :
    (∀ (pre : List SubmittableResult) (n : SubmittableResult)
       (rest : List SubmittableResult),
       (∀ m ∈ pre, m.status.isInBlock = false) →
       n.status.isInBlock = true →
       promiseSettle mnemonicCallback (pre ++ n :: rest)
         = (mnemonicCallback n).action
       ∧ (mnemonicCallback n).action.isSome = true)
    ∧ (∀ (n : ExtrinsicStatusNotification)
       (rest : List ExtrinsicStatusNotification),
       promiseSettle signedCallback (n :: rest) = (signedCallback n).action
       ∧ (signedCallback n).action.isSome = true) := by
  constructor
  · intro pre n rest hpre hib
    have hsome : (mnemonicCallback n).action.isSome = true := by
      cases hf : n.events.find? isExtrinsicSuccessEvent <;>
        simp [mnemonicCallback, hib, hf]
    obtain ⟨r, hr⟩ := Option.isSome_iff_exists.mp hsome
    have hskip := promiseSettle_append_of_none mnemonicCallback pre (n :: rest)
      (fun m hm => mnemonicCallback_action_none m (hpre m hm))
    refine ⟨?_, hsome⟩
    rw [hskip, promiseSettle_cons_of_some _ _ _ _ hr, hr]
  · intro n rest
    have hsome : (signedCallback n).action.isSome = true := by
      cases hib : n.status.isInBlock <;> simp [signedCallback, hib]
    obtain ⟨r, hr⟩ := Option.isSome_iff_exists.mp hsome
    refine ⟨?_, hsome⟩
    rw [promiseSettle_cons_of_some _ _ _ _ hr, hr]

/-- C5 witness: concrete sequences on both paths settle with the action
of their commit-point notification. -/
theorem C5_witness :
    promiseSettle mnemonicCallback
        [⟨[], TxStatus.ready, [1]⟩,
          ⟨[⟨"system", "ExtrinsicSuccess"⟩], TxStatus.inBlock [2], [3]⟩,
          ⟨[], TxStatus.dropped, [4]⟩]
      = (mnemonicCallback
          ⟨[⟨"system", "ExtrinsicSuccess"⟩], TxStatus.inBlock [2], [3]⟩).action
    ∧ promiseSettle signedCallback
        [⟨TxStatus.broadcast, [5]⟩, ⟨TxStatus.inBlock [6], [5]⟩]
      = (signedCallback ⟨TxStatus.broadcast, [5]⟩).action :=
  ⟨(C5_commit_points.1 [⟨[], TxStatus.ready, [1]⟩]
      ⟨[⟨"system", "ExtrinsicSuccess"⟩], TxStatus.inBlock [2], [3]⟩
      [⟨[], TxStatus.dropped, [4]⟩] (by decide) rfl).1,
    (C5_commit_points.2 ⟨TxStatus.broadcast, [5]⟩
      [⟨TxStatus.inBlock [6], [5]⟩]).1⟩

/-- C6: on both submission paths, whenever the returned response has
success set, both the transaction hash and the block hash are present
and nonempty. -/
theorem C6_success_implies_hashes :
    (∀ (apiConnected : Bool) (mnemonic : String) (cfg : TransactionConfig)
       (ns : List SubmittableResult) (resp : RunTransactionResponse),
       (transactMnemonicString apiConnected mnemonic cfg ns).outcome
         = RunOutcome.ok resp →
       resp.success = true →
       (∃ h1, resp.txHash = some h1 ∧ h1 ≠ "")
       ∧ ∃ h2, resp.blockHash = some h2 ∧ h2 ≠ "")
    ∧ (∀ (api : Option ApiPromise) (cfg : TransactionConfig)
       (ns : List ExtrinsicStatusNotification)
       (resp : RunTransactionResponse),
       (transactSigned api cfg ns).outcome = RunOutcome.ok resp →
       resp.success = true →
       (∃ h1, resp.txHash = some h1 ∧ h1 ≠ "")
       ∧ ∃ h2, resp.blockHash = some h2 ∧ h2 ≠ "") := by
  constructor
  · intro apiConnected mnemonic cfg ns resp hok hsucc
    cases apiConnected with
    | false => simp [transactMnemonicString] at hok
    | true =>
      cases hs : promiseSettle mnemonicCallback ns with
      | none => simp [transactMnemonicString, hs] at hok
      | some r =>
        cases r with
        | error e => simp [transactMnemonicString, hs] at hok
        | ok r =>
          simp only [transactMnemonicString, Bool.not_true, Bool.false_eq_true,
            if_false, hs, RunOutcome.ok.injEq] at hok
          obtain ⟨m, hm, ha⟩ := promiseSettle_mem _ _ _ hs
          obtain ⟨hrs, ⟨a, hta⟩, ⟨b, htb⟩⟩ := mnemonicCallback_ok_shape m r ha
          subst hok
          exact ⟨⟨toHex a, by simp [hta], toHex_ne_empty a⟩,
            ⟨toHex b, by simp [htb], toHex_ne_empty b⟩⟩
  · intro api cfg ns resp hok hsucc
    cases hcfg : cfg.transferSubmittable with
    | none => simp [transactSigned, hcfg] at hok
    | some tx =>
      cases api with
      | none => simp [transactSigned, hcfg] at hok
      | some a =>
        by_cases hsig : a.decodeSignature tx = ""
        · simp [transactSigned, hcfg, hsig] at hok
        · by_cases hhex : isHex (a.decodeSignature tx) = true
          · cases hs : promiseSettle signedCallback ns with
            | none => simp [transactSigned, hcfg, hsig, hhex, hs] at hok
            | some r =>
              cases r with
              | error e => simp [transactSigned, hcfg, hsig, hhex, hs] at hok
              | ok r =>
                simp only [transactSigned, hcfg, hsig, hhex, hs, if_false,
                  Bool.not_true, Bool.false_eq_true, if_neg,
                  RunOutcome.ok.injEq] at hok
                obtain ⟨m, hm, ha⟩ := promiseSettle_mem _ _ _ hs
                obtain ⟨hrs, ⟨x, htx⟩, ⟨y, hty⟩⟩ := signedCallback_ok_shape m r ha
                subst hok
                exact ⟨⟨toHex x, by simp [htx], toHex_ne_empty x⟩,
                  ⟨toHex y, by simp [hty], toHex_ne_empty y⟩⟩
          · have hhex0 : isHex (a.decodeSignature tx) = false :=
              Bool.not_eq_true _ ▸ Bool.eq_false_iff.mpr hhex
            simp [transactSigned, hcfg, hsig, hhex0] at hok

/-- C6 witness: concrete successful runs on both paths return present,
nonempty hashes. -/
theorem C6_witness :
    ((transactMnemonicString true "//Alice"
        ⟨some "5G", some 1, Option.none⟩
        [⟨[⟨"system", "ExtrinsicSuccess"⟩], TxStatus.inBlock [3], [4]⟩]).outcome
      = RunOutcome.ok ⟨true, some (toHex [4]), some (toHex [3])⟩)
    ∧ ((∃ h1, (⟨true, some (toHex [4]), some (toHex [3])⟩ :
          RunTransactionResponse).txHash = some h1 ∧ h1 ≠ "")
      ∧ ∃ h2, (⟨true, some (toHex [4]), some (toHex [3])⟩ :
          RunTransactionResponse).blockHash = some h2 ∧ h2 ≠ "") :=
  ⟨rfl,
    C6_success_implies_hashes.1 true "//Alice"
      ⟨some "5G", some 1, Option.none⟩
      [⟨[⟨"system", "ExtrinsicSuccess"⟩], TxStatus.inBlock [3], [4]⟩]
      ⟨true, some (toHex [4]), some (toHex [3])⟩ rfl rfl⟩

/-- C10: whenever deployContract returns an outcome, the Prometheus
transaction counter was incremented exactly when the returned outcome
carries no contract address, and a successful deployment (which always
carries an address) performs no increment. -/
theorem C10_counter_iff_no_address :
    ∀ (apiConnected : Bool)
      (pluginRegistry : List (String × KeychainPlugin))
      (req : DeployContractInkRequest) (ns : List DeployNotification)
      (resp : DeployContractInkResponse),
      (deployContract apiConnected pluginRegistry req ns).outcome
        = DeployOutcome.ok resp →
      ((deployContract apiConnected pluginRegistry req ns).counterIncrements
          = 1 ↔ resp.address = Option.none)
      ∧ (resp.success = true →
          (deployContract apiConnected pluginRegistry req ns).counterIncrements
            = 0) := by
  intro apiConnected pluginRegistry req ns resp hok
  cases apiConnected with
  | false => simp [deployContract] at hok
  | true =>
    by_cases hN : isWeb3SigningCredentialNone req.web3SigningCredential
    · simp [deployContract, hN] at hok
    · have hN0 : isWeb3SigningCredentialNone req.web3SigningCredential = false :=
        Bool.eq_false_iff.mpr hN
      cases hres : resolveDeployMnemonic pluginRegistry req.web3SigningCredential with
      | error m => simp [deployContract, hN0, hres] at hok
      | ok mn =>
        cases hc : req.metadata.constructors.head? with
        | none => simp [deployContract, hN0, hres, hc] at hok
        | some c0 =>
          cases hs : promiseSettle deployCallback ns with
          | none => simp [deployContract, hN0, hres, hc, hs] at hok
          | some r =>
            cases r with
            | error e => simp [deployContract, hN0, hres, hc, hs] at hok
            | ok r =>
              simp only [deployContract, hN0, Bool.not_true, Bool.false_eq_true,
                if_false, hres, hc, hs, DeployOutcome.ok.injEq] at hok
              obtain ⟨m, hm, ha⟩ := promiseSettle_mem _ _ _ hs
              obtain ⟨hrs, hra⟩ := deployCallback_ok_shape m r ha
              subst hok
              constructor
              · simp [deployContract, hN0, hres, hc, hs, hra]
              · intro hsucc
                simp [deployContract, hN0, hres, hc, hs, hra]

/-- C10 witness: a concrete successful deployment returns an address and
performs no counter increment. -/
theorem C10_witness :
    ((deployContract true []
        ⟨"w", ⟨[⟨"new"⟩]⟩, 1, 2, Option.none, Option.none, Option.none,
          some ["false"], Web3SigningCredential.mnemonicString "//Alice"⟩
        [⟨"5CtAddr", TxStatus.inBlock [9], Option.none⟩]).counterIncrements = 1
      ↔ (⟨true, some "5CtAddr"⟩ : DeployContractInkResponse).address
          = Option.none)
    ∧ ((⟨true, some "5CtAddr"⟩ : DeployContractInkResponse).success = true →
        (deployContract true []
          ⟨"w", ⟨[⟨"new"⟩]⟩, 1, 2, Option.none, Option.none, Option.none,
            some ["false"], Web3SigningCredential.mnemonicString "//Alice"⟩
          [⟨"5CtAddr", TxStatus.inBlock [9], Option.none⟩]).counterIncrements
          = 0) :=
  C10_counter_iff_no_address true []
    ⟨"w", ⟨[⟨"new"⟩]⟩, 1, 2, Option.none, Option.none, Option.none,
      some ["false"], Web3SigningCredential.mnemonicString "//Alice"⟩
    [⟨"5CtAddr", TxStatus.inBlock [9], Option.none⟩]
    ⟨true, some "5CtAddr"⟩ rfl
